import Mathlib

/-!
Shallow embedding of src/isl_spatial2d.h (isl_spatial2d v0.1, a uniform-grid
spatial hash for 2D axis-aligned rectangles).

Modelling conventions, fixed once for the whole file:

* `isls2d_float` is modelled by `ℚ` (exact arithmetic; the header selects
  float or double at compile time, and every formula we verify is about the
  mathematical values the code manipulates, not about rounding).
* stb_ds dynamic arrays are modelled by `List Int`; the stb_ds integer hash
  map is modelled by an association list `List (Int × List Int)`.
* stb_ds arrays are mutated in place by `arrdelswap`/`arrput`/`arrins`
  (reallocation aside), so a mutation made through the pointer stored in the
  hash map is visible to later `hmget` calls.  The model makes such writes
  explicit: after an in-place mutation of a cell's array the new value is
  stored back into the map when (and only when) the map already holds this
  key.  When the key is absent, `hmget` returns the default `NULL` array, the
  fresh array built by `arrput` is referenced by nobody, and the source
  stores it back only under its (unsatisfiable) condition `n == 1` — so the
  append is lost.  This is modelled literally.
* Out-of-bounds array reads are undefined behaviour in C.  The single
  unguarded spot reachable from the public API — `sh->entities[id]` for a
  negative `id` in `isls2d_remove`/`isls2d_update` (the only guard there is
  `id >= arrlen(sh->entities)`) — is modelled by returning `none`.  Interior
  reads (`sh->entities[i]` inside the overlap scans) use `List.getD` with a
  placeholder entity; every theorem below only exercises them in bounds.
* The file's forward declarations give
  `isls2d__insert_entity_into_cells(sh, e)` and
  `isls2d__remove_entity_from_cells(sh, e)` while both call sites pass
  `(sh, id, xmin, xmax, ymin, ymax)`, which is the only reading under which
  `isls2d_update` can tear down the old footprint and insert the new one.
  The model therefore uses the call-site signature; inside the bodies the
  pointer `e` denotes `&sh->entities[id]` and `o` denotes `&sh->entities[i]`
  exactly as written in the source (including the source's use of the
  positional index `i` where an id would be expected).
* In `isls2d_insert` the local `int id` is never assigned (the entity's id is
  stored in `entity.id`); the variable is nonetheless passed to
  `isls2d__insert_entity_into_cells` and returned.  Reading an uninitialized
  variable is undefined behaviour; the header's usage documentation
  (`int id = isls2d_insert(...)`) says the call yields the entity's id, so
  the model uses `entity.id` there and the divergence is recorded against
  claim C6.
-/

/-- Scalar type of the library (`isls2d_float`): modelled exactly by ℚ. -/
abbrev Scalar := ℚ

/-- Model of `struct isls2d_entity` (src lines 81-93).  `const void *data` is an
opaque pointer not owned by the structure; it is modelled by an integer tag.
`overlaps` is declared in the struct as an stb_ds hash map
`{int key; bool value;}*`, but every use in the implementation treats it as a
sorted int array (`isls2d__arrsorted_put_if_absent` / `isls2d__arrsorted_del`
with the hash-map calls commented out), so it is modelled as `List Int`. -/
structure Isls2dEntity where
  id : Int
  x : Scalar
  y : Scalar
  width : Scalar
  height : Scalar
  xmin : Int
  xmax : Int
  ymin : Int
  ymax : Int
  data : Int
  overlaps : List Int
deriving DecidableEq

/-- Placeholder entity used to model reads the C code performs without a
bounds check (undefined behaviour); no theorem below depends on its value. -/
instance : Inhabited Isls2dEntity :=
  ⟨⟨-1, 0, 0, 0, 0, 0, 0, 0, 0, 0, []⟩⟩

/-- Model of `struct isls2d` (src lines 95-102). -/
structure Isls2d where
  cells : List (Int × List Int)
  entities : List Isls2dEntity
  reusable_ids : List Int
  inv_cell_width : Scalar
  inv_cell_height : Scalar
  track_overlap : Bool
deriving DecidableEq

/-- Constant `ISLS2D_XMULT` = `1 << (4*sizeof(int))` = `2^16` for 32-bit int. -/
def ISLS2D_XMULT : Int := 65536

/-- Wrap-around of signed 32-bit int arithmetic, used by the key macro. -/
def wrap32 (z : Int) : Int := (z + 2 ^ 31) % 2 ^ 32 - 2 ^ 31

/-- Macro `ISLS2D_KEY(x, y)` = `x*ISLS2D_XMULT + y` in C `int` arithmetic. -/
def ISLS2D_KEY (x y : Int) : Int := wrap32 (x * ISLS2D_XMULT + y)

/-- The overlap macro `isls2d_overlaps` (src line 113):
`(x1)+(w1)>(x2) && (x2)+(w2)>(x1) && (y1)+(h1)>(y2) && (y2)+(h2)>(y1)`. -/
def isls2d_overlaps (x1 y1 w1 h1 x2 y2 w2 h2 : Scalar) : Bool :=
  decide (x1 + w1 > x2) && decide (x2 + w2 > x1) &&
  decide (y1 + h1 > y2) && decide (y2 + h2 > y1)

/-- stb_ds `hmget sh->cells key`: the stored array, or the default `NULL`
array (modelled by `[]`) when the key is absent. -/
def hmget (cells : List (Int × List Int)) (k : Int) : List Int :=
  (cells.lookup k).getD []

/-- Whether the map holds an entry for key `k`. -/
def hmhas (cells : List (Int × List Int)) (k : Int) : Bool :=
  (cells.lookup k).isSome

/-- stb_ds `hmput`: replace the value at an existing key in place, otherwise
add the binding at the end. -/
def hmput (cells : List (Int × List Int)) (k : Int) (v : List Int) :
    List (Int × List Int) :=
  if hmhas cells k then cells.map (fun p => if p.1 == k then (k, v) else p)
  else cells ++ [(k, v)]

/-- stb_ds `hmdel`: drop the binding for key `k` (no-op when absent). -/
def hmdel (cells : List (Int × List Int)) (k : Int) : List (Int × List Int) :=
  cells.filter (fun p => !(p.1 == k))

/-- stb_ds `arrins(a, i, v)`: insert `v` at position `i`. -/
def arrins (a : List Int) (i : Nat) (v : Int) : List Int :=
  a.take i ++ v :: a.drop i

/-- stb_ds `arrdelswap(a, i)`: overwrite position `i` with the last element
and shrink by one (order-unstable O(1) removal). -/
def arrdelswap (a : List Int) (i : Nat) : List Int :=
  (a.set i (a.getLastD 0)).dropLast

/-- The binary-search loop of `isls2d__arrsorted_put_if_absent`
(src lines 135-145): search `[l, r]`, and on falling through insert `v` at
the final `l` (`arrins(a, l, v)`).  `(l + r) >> 1` is an arithmetic shift,
i.e. flooring division by 2, which is `Int` division in Lean. -/
def isls2d__arrsorted_put_loop (a : List Int) (v : Int) (l r : Int) :
    List Int :=
  if _h : l ≤ r then
    let m := (l + r) / 2
    if a.getD m.toNat 0 < v then isls2d__arrsorted_put_loop a v (m + 1) r
    else if v < a.getD m.toNat 0 then isls2d__arrsorted_put_loop a v l (m - 1)
    else a
  else arrins a l.toNat v
termination_by (r + 1 - l).toNat
decreasing_by
  all_goals simp_wf
  all_goals omega

/-- Function `isls2d__arrsorted_put_if_absent(a, v)` (src lines 135-145). -/
def isls2d__arrsorted_put_if_absent (a : List Int) (v : Int) : List Int :=
  isls2d__arrsorted_put_loop a v 0 ((a.length : Int) - 1)

/-- The binary-search loop of `isls2d__arrsorted_del` (src lines 147-159):
on a hit delete position `m` (`arrdel(a, m)`, order-preserving), otherwise
return the array unchanged. -/
def isls2d__arrsorted_del_loop (a : List Int) (v : Int) (l r : Int) :
    List Int :=
  if _h : l ≤ r then
    let m := (l + r) / 2
    if a.getD m.toNat 0 < v then isls2d__arrsorted_del_loop a v (m + 1) r
    else if v < a.getD m.toNat 0 then isls2d__arrsorted_del_loop a v l (m - 1)
    else a.eraseIdx m.toNat
  else a
termination_by (r + 1 - l).toNat
decreasing_by
  all_goals simp_wf
  all_goals omega

/-- Function `isls2d__arrsorted_del(a, v)` (src lines 147-159). -/
def isls2d__arrsorted_del (a : List Int) (v : Int) : List Int :=
  isls2d__arrsorted_del_loop a v 0 ((a.length : Int) - 1)

/-- Read `sh->entities[i]` (placeholder on an out-of-bounds read, see the
header comment). -/
def Isls2d.entGet (sh : Isls2d) (i : Nat) : Isls2dEntity :=
  sh.entities.getD i default

/-- Write through `(...)->overlaps` for the entity slot `i`. -/
def Isls2d.setOverlaps (sh : Isls2d) (i : Nat) (ov : List Int) : Isls2d :=
  { sh with entities := sh.entities.set i { sh.entGet i with overlaps := ov } }

/-- Half-open integer range `[a, b)` as a list, in ascending order. -/
def intRange (a b : Int) : List Int :=
  (List.range (b - a).toNat).map (fun i : Nat => a + (i : Int))

/-- The cell coordinates visited by the nested loops
`for (x = xmin; x < xmax; x++) for (y = ymin; y < ymax; y++)` shared by
`isls2d__insert_entity_into_cells` and `isls2d__remove_entity_from_cells`. -/
def footprintCells (xmin xmax ymin ymax : Int) : List (Int × Int) :=
  (intRange xmin xmax).flatMap (fun x => (intRange ymin ymax).map (fun y => (x, y)))

/-- One iteration of the overlap scan at src lines 169-177: `e` is
`&sh->entities[eIdx]`, and `o` is `&sh->entities[i]` — the positional index
into the entity array, not `cell_ids[i]` — exactly as the source reads it.
On a positive overlap test, put-if-absent each id into the other's sorted
overlap array (`storedId` is the value of `int id = e->id`, src line 162;
the body never writes `e->id`, so the cached read and the fresh read at
line 173 agree). -/
def insertOverlapScanStep (eIdx storedId : Int) (s : Isls2d) (i : Nat) :
    Isls2d :=
  let e := s.entGet eIdx.toNat
  let o := s.entGet i
  if isls2d_overlaps e.x e.y e.width e.height o.x o.y o.width o.height then
    let s1 := s.setOverlaps eIdx.toNat
      (isls2d__arrsorted_put_if_absent e.overlaps o.id)
    s1.setOverlaps i
      (isls2d__arrsorted_put_if_absent (s1.entGet i).overlaps storedId)
  else s

/-- One iteration of the nested cell loop in
`isls2d__insert_entity_into_cells` (src lines 165-180) at cell key `key`.
When `track_overlap` holds, the overlap scan above runs over the resident
count `n` of the cell.  `arrput(cell_ids, id)` mutates the array referenced
by the map when the key is present; otherwise the fresh array is stored
back only under the source's condition `n == 1`, which is unsatisfiable for
an absent key. -/
def isls2d__insert_cell_visit (sh : Isls2d) (eIdx storedId key : Int) :
    Isls2d :=
  let cell_ids := hmget sh.cells key
  let n := cell_ids.length
  let sh1 :=
    if sh.track_overlap then
      (List.range n).foldl (insertOverlapScanStep eIdx storedId) sh
    else sh
  if hmhas sh1.cells key || n == 1 then
    { sh1 with cells := hmput sh1.cells key (cell_ids ++ [storedId]) }
  else sh1

/-- Function `isls2d__insert_entity_into_cells` (src lines 161-183), taken at the
signature of its call sites `(sh, id, xmin, xmax, ymin, ymax)`; `e` denotes
`&sh->entities[id]` (see the header comment). -/
def isls2d__insert_entity_into_cells (sh : Isls2d)
    (id xmin xmax ymin ymax : Int) : Isls2d :=
  let storedId := (sh.entGet id.toNat).id
  (footprintCells xmin xmax ymin ymax).foldl
    (fun s xy => isls2d__insert_cell_visit s id storedId (ISLS2D_KEY xy.1 xy.2))
    sh

/-- One iteration of the loop at src lines 195-201: the loop variable is
`j`, yet the body indexes `&sh->entities[i]` — the cell-array position found
by the enclosing search, not `j` and not an id — and refers to the
undeclared `e`, which can only be `&sh->entities[id]`; both are modelled
literally. -/
def removeOverlapScanStep (id : Int) (i : Nat) (s : Isls2d) (_j : Nat) :
    Isls2d :=
  let e := s.entGet id.toNat
  let o := s.entGet i
  let s1 := s.setOverlaps id.toNat (isls2d__arrsorted_del e.overlaps o.id)
  s1.setOverlaps i
    (isls2d__arrsorted_del (s1.entGet i).overlaps (s1.entGet id.toNat).id)

/-- One iteration of the nested cell loop in
`isls2d__remove_entity_from_cells` (src lines 188-210) at cell key `key`.
The source scans the cell's array for the first position `i` holding `id`,
removes it with `arrdelswap` (an in-place mutation, visible through the
map's pointer) and breaks; in the tracking branch the scan step above then
runs `n-1` times.  Finally, a cell whose array became empty is purged from
the map. -/
def isls2d__remove_cell_visit (sh : Isls2d) (id key : Int) : Isls2d :=
  let cell_ids := hmget sh.cells key
  let n := cell_ids.length
  match (List.range n).find? (fun i => cell_ids.getD i 0 == id) with
  | some i =>
    let sh1 := { sh with cells := hmput sh.cells key (arrdelswap cell_ids i) }
    let sh2 :=
      if sh1.track_overlap then
        (List.range (n - 1)).foldl (removeOverlapScanStep id i) sh1
      else sh1
    if (hmget sh2.cells key).length == 0 then
      { sh2 with cells := hmdel sh2.cells key }
    else sh2
  | none =>
    if n == 0 then { sh with cells := hmdel sh.cells key } else sh

/-- Function `isls2d__remove_entity_from_cells` (src lines 185-212). -/
def isls2d__remove_entity_from_cells (sh : Isls2d)
    (id xmin xmax ymin ymax : Int) : Isls2d :=
  (footprintCells xmin xmax ymin ymax).foldl
    (fun s xy => isls2d__remove_cell_visit s id (ISLS2D_KEY xy.1 xy.2)) sh

/-- Function `isls2d_init` (src lines 214-216): the compound literal
`{NULL, NULL, NULL, 1.0f/cell_width, 1.0f/cell_height}` zero-initializes the
remaining member `track_overlap`, i.e. sets it to `false`. -/
def isls2d_init (cell_width cell_height : Scalar) : Isls2d :=
  { cells := [], entities := [], reusable_ids := []
    inv_cell_width := 1 / cell_width, inv_cell_height := 1 / cell_height
    track_overlap := false }

/-- Function `isls2d_clear` (src lines 218-235): frees every cell array and entity
overlap array and resets `cells`, `entities` and `reusable_ids` to `NULL`;
the cell sizes and `track_overlap` are untouched. -/
def isls2d_clear (sh : Isls2d) : Isls2d :=
  { sh with cells := [], entities := [], reusable_ids := [] }

/-- The footprint computed identically by `isls2d_insert` (src lines
239-242) and `isls2d_update` (src lines 278-281):
`xmin = floor(x*inv_cell_width)`, `xmax = ceil((x+width)*inv_cell_width)`,
`ymin = floor(y*inv_cell_height)`, `ymax = ceil((y+height)*inv_cell_height)`. -/
def isls2dFootprint (sh : Isls2d) (x y width height : Scalar) :
    Int × Int × Int × Int :=
  (⌊x * sh.inv_cell_width⌋, ⌈(x + width) * sh.inv_cell_width⌉,
   ⌊y * sh.inv_cell_height⌋, ⌈(y + height) * sh.inv_cell_height⌉)

/-- The entity literal of src line 243,
`{-1, x, y, width, height, xmin, xmax, ymin, ymax, data, NULL}`, with the
`-1` placeholder id already replaced by the allocated id `theId`
(src lines 245 and 248). -/
def insertRecord (sh : Isls2d) (x y width height : Scalar) (data : Int)
    (theId : Int) : Isls2dEntity :=
  { id := theId, x := x, y := y, width := width, height := height
    xmin := (isls2dFootprint sh x y width height).1
    xmax := (isls2dFootprint sh x y width height).2.1
    ymin := (isls2dFootprint sh x y width height).2.2.1
    ymax := (isls2dFootprint sh x y width height).2.2.2
    data := data, overlaps := [] }

/-- Id allocation in `isls2d_insert` (src lines 244-250): when the pool is
non-empty, `entity.id = arrpop(sh->reusable_ids)` and the slot at that index
is overwritten with the new record; else `entity.id = arrlen(sh->entities)`
and the record is appended. -/
def insertAlloc (sh : Isls2d) (x y width height : Scalar) (data : Int) :
    Isls2d × Int :=
  match sh.reusable_ids.getLast? with
  | some rid =>
    ({ sh with reusable_ids := sh.reusable_ids.dropLast
               entities := sh.entities.set rid.toNat
                 (insertRecord sh x y width height data rid) }, rid)
  | none =>
    ({ sh with entities := sh.entities ++
        [insertRecord sh x y width height data (sh.entities.length : Int)] },
     (sh.entities.length : Int))

/-- Function `isls2d_insert` (src lines 237-253): compute the footprint, allocate the
id and store the record, then run the cell insertion over the footprint.
The source then passes to `isls2d__insert_entity_into_cells` and returns the
never-assigned local `int id`; following the header's usage documentation
the model passes and returns `entity.id` (recorded against claim C6). -/
def isls2d_insert (sh : Isls2d) (x y width height : Scalar) (data : Int) :
    Isls2d × Int :=
  (isls2d__insert_entity_into_cells
    (insertAlloc sh x y width height data).1
    (insertAlloc sh x y width height data).2
    (isls2dFootprint sh x y width height).1
    (isls2dFootprint sh x y width height).2.1
    (isls2dFootprint sh x y width height).2.2.1
    (isls2dFootprint sh x y width height).2.2.2,
   (insertAlloc sh x y width height data).2)

/-- The loop at src lines 261-264: `n = arrlen(sh->entities[id].overlaps)`
and then, for `i` in `0..n-1`, `isls2d__arrsorted_del(sh->entities[i].overlaps, id)`
— the entity array is indexed by the position `i`, not by the ids recorded
in the removed entity's overlap array (modelled literally). -/
def removeOverlapSweep (sh : Isls2d) (id : Int) : Isls2d :=
  (List.range ((sh.entGet id.toNat).overlaps.length)).foldl
    (fun s i => s.setOverlaps i (isls2d__arrsorted_del (s.entGet i).overlaps id))
    sh

/-- Cell teardown at src line 259: the footprint arguments are the fields
of the copy `entity = sh->entities[id]` taken at line 257. -/
def removeTeardown (sh : Isls2d) (id : Int) : Isls2d :=
  isls2d__remove_entity_from_cells sh id
    (sh.entGet id.toNat).xmin (sh.entGet id.toNat).xmax
    (sh.entGet id.toNat).ymin (sh.entGet id.toNat).ymax

/-- Tombstoning at src line 260: `sh->entities[id].id = -1`. -/
def removeTombstone (sh : Isls2d) (id : Int) : Isls2d :=
  { sh with
    entities := sh.entities.set id.toNat
      { sh.entGet id.toNat with id := -1 } }

/-- Src lines 267-271: the comparison `id == arrlen(sh->entities)` decides
between shrinking the dense array (`arrpop`) and pooling the id
(`arrput(sh->reusable_ids, id)`). -/
def removeFinish (sh : Isls2d) (id : Int) : Isls2d :=
  if id = (sh.entities.length : Int)
  then { sh with entities := sh.entities.dropLast }
  else { sh with reusable_ids := sh.reusable_ids ++ [id] }

/-- The body of `isls2d_remove` past its guards (src lines 259-271): cell
teardown over the stored footprint, tombstoning of the slot, the positional
overlap sweep, freeing of the removed entity's overlap array
(`arrfree` + `NULL`, i.e. setting it to `[]`), then `removeFinish`. -/
def isls2d_remove_live (sh : Isls2d) (id : Int) : Isls2d :=
  removeFinish
    ((removeOverlapSweep (removeTombstone (removeTeardown sh id) id) id).setOverlaps
      id.toNat [])
    id

/-- Function `isls2d_remove` (src lines 255-272).  The only range guard is
`id >= arrlen(sh->entities)`; for a negative `id` the read
`sh->entities[id]` at line 257 is out of bounds (undefined behaviour),
modelled by `none`.  A slot whose stored id differs from `id` (tombstoned
or stale) is left alone; otherwise the live path above runs. -/
def isls2d_remove (sh : Isls2d) (id : Int) : Option Isls2d :=
  if id ≥ (sh.entities.length : Int) then some sh
  else if 0 ≤ id then
    if (sh.entGet id.toNat).id ≠ id then some sh
    else some (isls2d_remove_live sh id)
  else none

/-- The conditional relocation of src lines 282-285: the cell
teardown/re-insert runs when `sh->track_overlap || xmin != entity.xmin ||
xmax != entity.xmax || ymin != entity.ymin || ymax != entity.ymax`, where
the left-hand sides are the freshly computed footprint of the new rectangle
and the right-hand sides the stored footprint. -/
def updateRelocate (sh : Isls2d) (id : Int) (x y width height : Scalar) :
    Isls2d :=
  if sh.track_overlap ∨
      (isls2dFootprint sh x y width height).1 ≠ (sh.entGet id.toNat).xmin ∨
      (isls2dFootprint sh x y width height).2.1 ≠ (sh.entGet id.toNat).xmax ∨
      (isls2dFootprint sh x y width height).2.2.1 ≠ (sh.entGet id.toNat).ymin ∨
      (isls2dFootprint sh x y width height).2.2.2 ≠ (sh.entGet id.toNat).ymax
  then
    isls2d__insert_entity_into_cells (removeTeardown sh id) id
      (isls2dFootprint sh x y width height).1
      (isls2dFootprint sh x y width height).2.1
      (isls2dFootprint sh x y width height).2.2.1
      (isls2dFootprint sh x y width height).2.2.2
  else sh

/-- The slot overwrite at src line 286:
`sh->entities[id] = {entity.id, x, y, width, height, xmin, xmax, ymin,
ymax, entity.data, entity.overlaps}`, where `entity` is the copy taken from
`sh0` before the relocation and `entity.overlaps` is the pointer aliasing
the slot's overlap array in the relocated state `sh1`. -/
def updateWriteRecord (sh0 sh1 : Isls2d) (id : Int)
    (x y width height : Scalar) : Isls2d :=
  { sh1 with
    entities := sh1.entities.set id.toNat
      { id := (sh0.entGet id.toNat).id, x := x, y := y
        width := width, height := height
        xmin := (isls2dFootprint sh0 x y width height).1
        xmax := (isls2dFootprint sh0 x y width height).2.1
        ymin := (isls2dFootprint sh0 x y width height).2.2.1
        ymax := (isls2dFootprint sh0 x y width height).2.2.2
        data := (sh0.entGet id.toNat).data
        overlaps := (sh1.entGet id.toNat).overlaps } }

/-- The body of `isls2d_update` past its guards (src lines 278-286):
conditional relocation followed by the unconditional slot overwrite. -/
def isls2d_update_live (sh : Isls2d) (id : Int) (x y width height : Scalar) :
    Isls2d :=
  updateWriteRecord sh (updateRelocate sh id x y width height) id
    x y width height

/-- Function `isls2d_update` (src lines 274-287): same guards and negative-id
out-of-bounds read as `isls2d_remove`; on a live id the live path above
runs. -/
def isls2d_update (sh : Isls2d) (id : Int) (x y width height : Scalar) :
    Option Isls2d :=
  if id ≥ (sh.entities.length : Int) then some sh
  else if 0 ≤ id then
    if (sh.entGet id.toNat).id ≠ id then some sh
    else some (isls2d_update_live sh id x y width height)
  else none

/-- The grid states reachable through the public interface (src lines
108-112): initialization followed by any sequence of insert, remove, update
and clear calls. -/
inductive Reachable : Isls2d → Prop
  | init (cw ch : Scalar) : Reachable (isls2d_init cw ch)
  | insert (sh : Isls2d) (x y w h : Scalar) (d : Int) :
      Reachable sh → Reachable (isls2d_insert sh x y w h d).1
  | remove (sh : Isls2d) (id : Int) (sh2 : Isls2d) :
      Reachable sh → isls2d_remove sh id = some sh2 → Reachable sh2
  | update (sh : Isls2d) (id : Int) (x y w h : Scalar) (sh2 : Isls2d) :
      Reachable sh → isls2d_update sh id x y w h = some sh2 → Reachable sh2
  | clear (sh : Isls2d) : Reachable sh → Reachable (isls2d_clear sh)

/-- Concrete scenario state: the grid produced by
`isls2d_init(&sh, 1, 1)` followed by `isls2d_insert(&sh, 0, 0, 1, 1, 7)`
(proved equal to that below). -/
def demoGrid : Isls2d :=
  { cells := []
    entities := [{ id := 0, x := 0, y := 0, width := 1, height := 1
                   xmin := 0, xmax := 1, ymin := 0, ymax := 1
                   data := 7, overlaps := [] }]
    reusable_ids := []
    inv_cell_width := 1, inv_cell_height := 1, track_overlap := false }

/-- Concrete scenario state: `demoGrid` after `isls2d_remove(&sh, 0)` — the
slot is tombstoned and the id pooled (proved below). -/
def demoGridRemoved : Isls2d :=
  { cells := []
    entities := [{ id := -1, x := 0, y := 0, width := 1, height := 1
                   xmin := 0, xmax := 1, ymin := 0, ymax := 1
                   data := 7, overlaps := [] }]
    reusable_ids := [0]
    inv_cell_width := 1, inv_cell_height := 1, track_overlap := false }

/-- Concrete scenario state: an initialized 1x1 grid whose `track_overlap`
flag has been switched on (no public operation can produce this flag value;
the tracking code paths are exercised on it directly). -/
def trackGrid : Isls2d :=
  { isls2d_init 1 1 with track_overlap := true }

/-- Concrete scenario state: `trackGrid` after
`isls2d_insert(&sh, 0, 0, 1, 1, 7)` (proved below). -/
def trackGrid1 : Isls2d :=
  { cells := []
    entities := [{ id := 0, x := 0, y := 0, width := 1, height := 1
                   xmin := 0, xmax := 1, ymin := 0, ymax := 1
                   data := 7, overlaps := [] }]
    reusable_ids := []
    inv_cell_width := 1, inv_cell_height := 1, track_overlap := true }

/-- Concrete scenario state: `trackGrid1` after
`isls2d_insert(&sh, 1/2, 0, 1/2, 1, 8)` (proved below).  The two entities'
rectangles overlap under the strict predicate and share cell (0,0), yet
both overlap sets are empty. -/
def trackGrid2 : Isls2d :=
  { cells := []
    entities := [{ id := 0, x := 0, y := 0, width := 1, height := 1
                   xmin := 0, xmax := 1, ymin := 0, ymax := 1
                   data := 7, overlaps := [] },
                 { id := 1, x := 1/2, y := 0, width := 1/2, height := 1
                   xmin := 0, xmax := 1, ymin := 0, ymax := 1
                   data := 8, overlaps := [] }]
    reusable_ids := []
    inv_cell_width := 1, inv_cell_height := 1, track_overlap := true }

/-- Concrete scenario state with tracking on: entity 0 and entity 2 record
each other in their overlap sets (entity rectangles are degenerate so the
cell footprints are empty and the cell map is consistently empty). -/
def staleOverlapGrid : Isls2d :=
  { cells := []
    entities :=
      [{ id := 0, x := 0, y := 0, width := 0, height := 0
         xmin := 0, xmax := 0, ymin := 0, ymax := 0, data := 0
         overlaps := [2] },
       { id := 1, x := 0, y := 0, width := 0, height := 0
         xmin := 0, xmax := 0, ymin := 0, ymax := 0, data := 0
         overlaps := [] },
       { id := 2, x := 0, y := 0, width := 0, height := 0
         xmin := 0, xmax := 0, ymin := 0, ymax := 0, data := 0
         overlaps := [0] }]
    reusable_ids := []
    inv_cell_width := 1, inv_cell_height := 1, track_overlap := true }

/-- Concrete scenario state: `staleOverlapGrid` after
`isls2d_remove(&sh, 0)` (proved below).  Entity 2 still records the removed
id 0 in its overlap set. -/
def staleOverlapGridRemoved : Isls2d :=
  { cells := []
    entities :=
      [{ id := -1, x := 0, y := 0, width := 0, height := 0
         xmin := 0, xmax := 0, ymin := 0, ymax := 0, data := 0
         overlaps := [] },
       { id := 1, x := 0, y := 0, width := 0, height := 0
         xmin := 0, xmax := 0, ymin := 0, ymax := 0, data := 0
         overlaps := [] },
       { id := 2, x := 0, y := 0, width := 0, height := 0
         xmin := 0, xmax := 0, ymin := 0, ymax := 0, data := 0
         overlaps := [0] }]
    reusable_ids := [0]
    inv_cell_width := 1, inv_cell_height := 1, track_overlap := true }

/-  Helper lemmas. -/

theorem foldl_fixed {α β : Type} (f : α → β → α) (P : α → Prop)
    (hf : ∀ a b, P a → f a b = a) :
    ∀ (L : List β) (a : α), P a → L.foldl f a = a
  | [], _, _ => rfl
  | b :: L, a, ha => by
    rw [List.foldl_cons, hf a b ha]
    exact foldl_fixed f P hf L a ha

theorem getD_set_self {α : Type} (l : List α) (i : Nat) (a d : α)
    (h : i < l.length) : (l.set i a).getD i d = a := by
  simp [List.getD_eq_getElem?_getD, List.getElem?_set_self', h]

theorem hmget_nil (k : Int) : hmget [] k = [] := rfl

theorem cells_eta (sh : Isls2d) : { sh with cells := sh.cells } = sh := rfl

/-- With an empty cell map, one insert visit changes nothing: the resident
count is 0, the overlap scan is empty, and the fresh array built by
`arrput` is not stored back (the condition `n == 1` fails). -/
theorem insert_cell_visit_nil (sh : Isls2d) (eIdx storedId key : Int)
    (h : sh.cells = []) :
    isls2d__insert_cell_visit sh eIdx storedId key = sh := by
  unfold isls2d__insert_cell_visit
  simp [h, hmget, hmhas]

/-- With an empty cell map, `isls2d__insert_entity_into_cells` is the
identity. -/
theorem insert_into_cells_nil (sh : Isls2d) (id xmin xmax ymin ymax : Int)
    (h : sh.cells = []) :
    isls2d__insert_entity_into_cells sh id xmin xmax ymin ymax = sh := by
  unfold isls2d__insert_entity_into_cells
  exact foldl_fixed _ (fun s => s.cells = [])
    (fun s xy hs => insert_cell_visit_nil s id _ _ hs) _ sh h

/-- With an empty cell map, one remove visit changes nothing: the array is
empty, no occurrence of the id is found, and purging an absent key is a
no-op. -/
theorem remove_cell_visit_nil (sh : Isls2d) (id key : Int)
    (h : sh.cells = []) :
    isls2d__remove_cell_visit sh id key = sh := by
  obtain ⟨c, e, r, iw, ih2, t⟩ := sh
  simp only at h
  subst h
  unfold isls2d__remove_cell_visit
  simp [hmget, hmdel]

/-- With an empty cell map, `isls2d__remove_entity_from_cells` is the
identity. -/
theorem remove_from_cells_nil (sh : Isls2d) (id xmin xmax ymin ymax : Int)
    (h : sh.cells = []) :
    isls2d__remove_entity_from_cells sh id xmin xmax ymin ymax = sh := by
  unfold isls2d__remove_entity_from_cells
  exact foldl_fixed _ (fun s => s.cells = [])
    (fun s xy hs => remove_cell_visit_nil s id _ hs) _ sh h

/-- The peripheral state (cells, entity count, pool, flag) is unchanged by
any fold of overlap-set writes. -/
theorem foldl_setOverlaps_periph (L : List Nat) (f : Isls2d → Nat → List Int)
    (sh : Isls2d) :
    (L.foldl (fun s i => s.setOverlaps i (f s i)) sh).cells = sh.cells ∧
    (L.foldl (fun s i => s.setOverlaps i (f s i)) sh).entities.length =
      sh.entities.length ∧
    (L.foldl (fun s i => s.setOverlaps i (f s i)) sh).reusable_ids =
      sh.reusable_ids ∧
    (L.foldl (fun s i => s.setOverlaps i (f s i)) sh).track_overlap =
      sh.track_overlap := by
  induction L generalizing sh with
  | nil => exact ⟨rfl, rfl, rfl, rfl⟩
  | cons b L ih =>
    rw [List.foldl_cons]
    obtain ⟨h1, h2, h3, h4⟩ := ih (sh.setOverlaps b (f sh b))
    exact ⟨h1.trans rfl,
      h2.trans (by simp [Isls2d.setOverlaps, List.length_set]),
      h3.trans rfl, h4.trans rfl⟩

/-- On an empty cell map, insert with an empty pool appends a fresh record
and returns the fresh id. -/
theorem insert_fresh_of_cells_nil (sh : Isls2d) (hc : sh.cells = [])
    (hp : sh.reusable_ids.getLast? = none) (x y w h : Scalar) (d : Int) :
    isls2d_insert sh x y w h d =
      ({ sh with entities := sh.entities ++
          [insertRecord sh x y w h d (sh.entities.length : Int)] },
       (sh.entities.length : Int)) := by
  unfold isls2d_insert insertAlloc
  simp only [hp]
  rw [Prod.mk.injEq]
  exact ⟨insert_into_cells_nil _ _ _ _ _ _ hc, rfl⟩

/-- On an empty cell map, insert with a non-empty pool pops the pool's tail,
overwrites that slot and returns the reused id. -/
theorem insert_reuse_of_cells_nil (sh : Isls2d) (hc : sh.cells = [])
    (rid : Int) (hp : sh.reusable_ids.getLast? = some rid)
    (x y w h : Scalar) (d : Int) :
    isls2d_insert sh x y w h d =
      ({ sh with reusable_ids := sh.reusable_ids.dropLast
                 entities := sh.entities.set rid.toNat
                   (insertRecord sh x y w h d rid) }, rid) := by
  unfold isls2d_insert insertAlloc
  simp only [hp]
  rw [Prod.mk.injEq]
  exact ⟨insert_into_cells_nil _ _ _ _ _ _ hc, rfl⟩

/-- The id returned by insert: the pool's tail when the pool is non-empty,
else the current entity-array length. -/
theorem insert_snd (sh : Isls2d) (x y w h : Scalar) (d : Int) :
    (isls2d_insert sh x y w h d).2 =
      (sh.reusable_ids.getLast?.getD (sh.entities.length : Int)) := by
  unfold isls2d_insert insertAlloc
  cases hp : sh.reusable_ids.getLast? <;> simp [hp]

/-- The positional overlap sweep leaves cells, entity count, pool and flag
unchanged. -/
theorem removeOverlapSweep_periph (sh : Isls2d) (id : Int) :
    (removeOverlapSweep sh id).cells = sh.cells ∧
    (removeOverlapSweep sh id).entities.length = sh.entities.length ∧
    (removeOverlapSweep sh id).reusable_ids = sh.reusable_ids ∧
    (removeOverlapSweep sh id).track_overlap = sh.track_overlap := by
  unfold removeOverlapSweep
  exact foldl_setOverlaps_periph _ _ _

theorem removeTeardown_nil (sh : Isls2d) (id : Int) (hc : sh.cells = []) :
    removeTeardown sh id = sh :=
  remove_from_cells_nil sh id _ _ _ _ hc

/-- On an empty cell map, removing a live in-range id keeps the cell map
empty, keeps the entity count (the source's shrink comparison
`id == arrlen(sh->entities)` cannot hold when `id < arrlen`), and pushes the
id onto the pool. -/
theorem remove_live_spec (sh : Isls2d) (id : Int) (hc : sh.cells = [])
    (hlt : id < (sh.entities.length : Int)) :
    (isls2d_remove_live sh id).cells = [] ∧
    (isls2d_remove_live sh id).entities.length = sh.entities.length ∧
    (isls2d_remove_live sh id).reusable_ids = sh.reusable_ids ++ [id] ∧
    (isls2d_remove_live sh id).track_overlap = sh.track_overlap := by
  unfold isls2d_remove_live
  rw [removeTeardown_nil sh id hc]
  have hA2 : (removeTombstone sh id).entities.length = sh.entities.length := by
    simp [removeTombstone, List.length_set]
  obtain ⟨hB1, hB2, hB3, hB4⟩ :=
    removeOverlapSweep_periph (removeTombstone sh id) id
  have hC2 : (((removeOverlapSweep (removeTombstone sh id) id).setOverlaps
      id.toNat []).entities.length) = sh.entities.length := by
    simp only [Isls2d.setOverlaps, List.length_set]
    exact hB2.trans hA2
  have hcond : ¬ id = ((((removeOverlapSweep (removeTombstone sh id) id).setOverlaps
      id.toNat []).entities.length : Nat) : Int) := by
    rw [hC2]; omega
  unfold removeFinish
  rw [if_neg hcond]
  refine ⟨?_, ?_, ?_, ?_⟩
  · exact (hB1.trans (show (removeTombstone sh id).cells = [] from hc))
  · exact hC2
  · rw [show ((removeOverlapSweep (removeTombstone sh id) id).setOverlaps
        id.toNat []).reusable_ids = sh.reusable_ids from hB3]
  · exact hB4

theorem updateRelocate_nil (sh : Isls2d) (id : Int) (x y w h : Scalar)
    (hc : sh.cells = []) : updateRelocate sh id x y w h = sh := by
  unfold updateRelocate
  split
  · rw [removeTeardown_nil sh id hc]
    exact insert_into_cells_nil _ _ _ _ _ _ hc
  · rfl

/-- On an empty cell map, the live update path only rewrites the slot. -/
theorem update_live_spec (sh : Isls2d) (id : Int) (x y w h : Scalar)
    (hc : sh.cells = []) :
    (isls2d_update_live sh id x y w h).cells = [] ∧
    (isls2d_update_live sh id x y w h).entities.length = sh.entities.length ∧
    (isls2d_update_live sh id x y w h).reusable_ids = sh.reusable_ids ∧
    (isls2d_update_live sh id x y w h).track_overlap = sh.track_overlap := by
  unfold isls2d_update_live updateWriteRecord
  rw [updateRelocate_nil sh id x y w h hc]
  exact ⟨hc, by simp [List.length_set], rfl, rfl⟩

/-- The invariant of every state reachable through the public interface:
the cell map is empty (`isls2d__insert_cell_visit` can only store a cell
array back under `hmhas ∨ n == 1`, which never holds starting from an
absent key, so no binding is ever created), every pooled id indexes into
the entity array, and overlap tracking is off (`isls2d_init`
zero-initializes the flag and no operation writes it). -/
theorem reachable_inv (sh : Isls2d) (hR : Reachable sh) :
    sh.cells = [] ∧
    (∀ p ∈ sh.reusable_ids, 0 ≤ p ∧ p < (sh.entities.length : Int)) ∧
    sh.track_overlap = false := by
  induction hR with
  | init cw ch => simp [isls2d_init]
  | clear sh hR ih => simpa [isls2d_clear] using ih.2.2
  | insert sh x y w h d hR ih =>
    obtain ⟨hc, hpool, ht⟩ := ih
    cases hlast : sh.reusable_ids.getLast? with
    | none =>
      rw [insert_fresh_of_cells_nil sh hc hlast x y w h d]
      refine ⟨hc, ?_, ht⟩
      intro p hp
      obtain ⟨h0, h1⟩ := hpool p hp
      simp only [List.length_append, List.length_cons, List.length_nil]
      omega
    | some rid =>
      rw [insert_reuse_of_cells_nil sh hc rid hlast x y w h d]
      refine ⟨hc, ?_, ht⟩
      intro p hp
      have hp' : p ∈ sh.reusable_ids :=
        (List.dropLast_sublist sh.reusable_ids).subset hp
      obtain ⟨h0, h1⟩ := hpool p hp'
      simpa [List.length_set] using ⟨h0, h1⟩
  | remove sh id sh2 hR heq ih =>
    obtain ⟨hc, hpool, ht⟩ := ih
    unfold isls2d_remove at heq
    split at heq
    · cases heq; exact ⟨hc, hpool, ht⟩
    next hge =>
      split at heq
      next h0 =>
        split at heq
        · cases heq; exact ⟨hc, hpool, ht⟩
        next hlive =>
          cases heq
          obtain ⟨q1, q2, q3, q4⟩ := remove_live_spec sh id hc (by omega)
          refine ⟨q1, ?_, q4.trans ht⟩
          intro p hp
          rw [q3] at hp
          rw [q2]
          rcases List.mem_append.mp hp with hmem | hmem
          · exact hpool p hmem
          · simp only [List.mem_singleton] at hmem
            subst hmem
            exact ⟨h0, by omega⟩
      next h0 => cases heq
  | update sh id x y w h sh2 hR heq ih =>
    obtain ⟨hc, hpool, ht⟩ := ih
    unfold isls2d_update at heq
    split at heq
    · cases heq; exact ⟨hc, hpool, ht⟩
    next hge =>
      split at heq
      next h0 =>
        split at heq
        · cases heq; exact ⟨hc, hpool, ht⟩
        next hlive =>
          cases heq
          obtain ⟨q1, q2, q3, q4⟩ := update_live_spec sh id x y w h hc
          refine ⟨q1, ?_, q4.trans ht⟩
          intro p hp
          rw [q3] at hp
          rw [q2]
          exact hpool p hp
      next h0 => cases heq

theorem mem_intRange (a b v : Int) : v ∈ intRange a b ↔ a ≤ v ∧ v < b := by
  unfold intRange
  constructor
  · intro hv
    obtain ⟨i, hi, hiv⟩ := List.mem_map.mp hv
    rw [List.mem_range] at hi
    omega
  · intro hv
    refine List.mem_map.mpr ⟨(v - a).toNat, ?_, ?_⟩
    · rw [List.mem_range]
      omega
    · omega

/-- The nested x/y loop of the cell traversal visits exactly the cells of
the half-open ranges. -/
theorem mem_footprintCells (xmin xmax ymin ymax cx cy : Int) :
    (cx, cy) ∈ footprintCells xmin xmax ymin ymax ↔
      (xmin ≤ cx ∧ cx < xmax ∧ ymin ≤ cy ∧ cy < ymax) := by
  unfold footprintCells
  simp only [List.mem_flatMap, List.mem_map, mem_intRange, Prod.mk.injEq]
  constructor
  · rintro ⟨a, ha, b, hb, rfl, rfl⟩
    exact ⟨ha.1, ha.2, hb.1, hb.2⟩
  · rintro ⟨h1, h2, h3, h4⟩
    exact ⟨cx, ⟨h1, h2⟩, cy, ⟨h3, h4⟩, rfl, rfl⟩

/-- The concrete scenario grid is the result of one insert on a fresh 1x1
grid. -/
theorem demoGrid_eq : (isls2d_insert (isls2d_init 1 1) 0 0 1 1 7).1 = demoGrid := by
  rw [insert_fresh_of_cells_nil (isls2d_init 1 1) rfl rfl 0 0 1 1 7]
  simp only [demoGrid, isls2d_init, insertRecord, isls2dFootprint]
  norm_num

theorem demoGrid_reachable : Reachable demoGrid :=
  demoGrid_eq ▸ Reachable.insert (isls2d_init 1 1) 0 0 1 1 7 (Reachable.init 1 1)

/-- C10: every grid produced by `isls2d_init` has overlap tracking disabled
(the five-element compound literal zero-initializes `track_overlap`), `init`
takes no tracking parameter, and no public operation writes the flag, so
every state reachable through the public interface has
`track_overlap = false` and the tracking-enabled behaviour is unreachable. -/
theorem c10_tracking_flag_never_set (sh : Isls2d) (hR : Reachable sh) :
    sh.track_overlap = false :=
  (reachable_inv sh hR).2.2

theorem c10_tracking_flag_never_set_witness :
    (isls2d_init 32 32).track_overlap = false :=
  c10_tracking_flag_never_set (isls2d_init 32 32) (Reachable.init 32 32)

/-- C2: the overlap test returns true iff `x1+w1>x2 ∧ x2+w2>x1 ∧ y1+h1>y2 ∧
y2+h2>y1`; in particular two rectangles that merely touch along an edge
(`x1+w1 = x2`) do not overlap. -/
theorem c2_overlaps_iff_strict :
    (∀ x1 y1 w1 h1 x2 y2 w2 h2 : Scalar,
      isls2d_overlaps x1 y1 w1 h1 x2 y2 w2 h2 = true ↔
        (x1 + w1 > x2 ∧ x2 + w2 > x1 ∧ y1 + h1 > y2 ∧ y2 + h2 > y1)) ∧
    (∀ x1 y1 w1 h1 x2 y2 w2 h2 : Scalar,
      x1 + w1 = x2 → isls2d_overlaps x1 y1 w1 h1 x2 y2 w2 h2 = false) := by
  constructor
  · intro x1 y1 w1 h1 x2 y2 w2 h2
    unfold isls2d_overlaps
    simp [and_assoc]
  · intro x1 y1 w1 h1 x2 y2 w2 h2 heq
    unfold isls2d_overlaps
    simp [← heq]

theorem c2_overlaps_iff_strict_witness :
    isls2d_overlaps 0 0 1 1 (1/2) 0 1 1 = true ∧
    isls2d_overlaps 0 0 1 1 1 0 1 1 = false := by
  constructor
  · exact (c2_overlaps_iff_strict.1 0 0 1 1 (1/2) 0 1 1).mpr (by norm_num)
  · exact c2_overlaps_iff_strict.2 0 0 1 1 1 0 1 1 (by norm_num)

/-- C4 (code bug): the first insertion into a fresh grid covers cell (0,0)
with a live id, yet the cell map afterwards holds no binding at all — the
source stores the cell array back only under `n == 1`, where `n` is the
pre-append length, so the map entry for a previously empty cell is never
created and a lookup for that key reports absent. -/
theorem c4_cell_map_entry_never_created :
    ((0 : Int), (0 : Int)) ∈ footprintCells (demoGrid.entGet 0).xmin
      (demoGrid.entGet 0).xmax (demoGrid.entGet 0).ymin
      (demoGrid.entGet 0).ymax ∧
    (demoGrid.entGet 0).id = 0 ∧
    (isls2d_insert (isls2d_init 1 1) 0 0 1 1 7).1.cells = [] ∧
    hmget (isls2d_insert (isls2d_init 1 1) 0 0 1 1 7).1.cells
      (ISLS2D_KEY 0 0) = [] := by
  refine ⟨by decide, rfl, ?_, ?_⟩
  · rw [demoGrid_eq]
    rfl
  · rw [demoGrid_eq]
    rfl

/-- C5 (code bug): remove/update on a non-negative out-of-range id or on a
stale slot are silent no-ops, but for a negative id the only guard
`id >= arrlen(sh->entities)` does not fire and `sh->entities[id]` is read
out of bounds (undefined behaviour, modelled as `none`), contradicting the
claimed total silent-no-op contract. -/
theorem c5_invalid_id_handling :
    isls2d_remove demoGrid (-1) = none ∧
    isls2d_update demoGrid (-1) 2 2 1 1 = none ∧
    isls2d_remove demoGrid 5 = some demoGrid ∧
    isls2d_update demoGrid 5 2 2 1 1 = some demoGrid ∧
    isls2d_remove demoGridRemoved 0 = some demoGridRemoved ∧
    isls2d_update demoGridRemoved 0 2 2 1 1 = some demoGridRemoved := by
  refine ⟨rfl, rfl, rfl, rfl, rfl, rfl⟩

/-- C6 (code bug): insert on a fresh grid returns the stored id 0, and that
id is the last index of the dense array, yet removing it does not shrink
the array — the source compares `id == arrlen(sh->entities)` after having
established `id < arrlen`, so the shrink branch is dead and the id is
pooled with the slot tombstoned. -/
theorem c6_remove_pools_tail_id :
    (isls2d_insert (isls2d_init 1 1) 0 0 1 1 7).2 = 0 ∧
    isls2d_remove demoGrid 0 = some demoGridRemoved ∧
    demoGridRemoved.entities.length = 1 ∧
    (demoGridRemoved.entGet 0).id = -1 ∧
    demoGridRemoved.reusable_ids = [0] := by
  refine ⟨rfl, rfl, rfl, rfl, rfl⟩

theorem getLast?_mem_of_eq_some {l : List Int} {a : Int}
    (h : l.getLast? = some a) : a ∈ l := by
  obtain ⟨hne, rfl⟩ := List.mem_getLast?_eq_getLast
    (show a ∈ l.getLast? by rw [h]; rfl)
  exact List.getLast_mem hne

theorem getD_append_length {α : Type} (l : List α) (a d : α) :
    (l ++ [a]).getD l.length d = a := by
  simp [List.getD_eq_getElem?_getD, List.getElem?_append_right]

/-- C7: on every reachable grid state, inserting a rectangle and
immediately removing the returned id succeeds and restores the cell map to
its prior contents (in every reachable state the cell map is empty, because
insertion never creates a map entry, and it stays empty), and the freed id
is the one returned by the next insert, whatever rectangle that insert
carries. -/
theorem c7_insert_remove_roundtrip (sh : Isls2d) (hR : Reachable sh)
    (x y w h : Scalar) (d : Int) (x2 y2 w2 h2 : Scalar) (d2 : Int) :
    ∃ sh2 : Isls2d,
      isls2d_remove (isls2d_insert sh x y w h d).1
        (isls2d_insert sh x y w h d).2 = some sh2 ∧
      sh2.cells = sh.cells ∧
      (isls2d_insert sh2 x2 y2 w2 h2 d2).2 = (isls2d_insert sh x y w h d).2 := by
  obtain ⟨hc, hpool, ht⟩ := reachable_inv sh hR
  cases hp : sh.reusable_ids.getLast? with
  | none =>
    rw [insert_fresh_of_cells_nil sh hc hp x y w h d]
    have hlen1 : ({ sh with entities := sh.entities ++
        [insertRecord sh x y w h d (sh.entities.length : Int)] } : Isls2d).entities.length
        = sh.entities.length + 1 := by
      simp
    have hlive : (({ sh with entities := sh.entities ++
        [insertRecord sh x y w h d (sh.entities.length : Int)] } : Isls2d).entGet
          ((sh.entities.length : Int)).toNat).id = (sh.entities.length : Int) := by
      simp only [Isls2d.entGet, Int.toNat_natCast]
      rw [getD_append_length]
      rfl
    obtain ⟨q1, q2, q3, q4⟩ := remove_live_spec
      { sh with entities := sh.entities ++
          [insertRecord sh x y w h d (sh.entities.length : Int)] }
      (sh.entities.length : Int) hc (by rw [hlen1]; omega)
    have hrem : isls2d_remove
        { sh with entities := sh.entities ++
            [insertRecord sh x y w h d (sh.entities.length : Int)] }
        (sh.entities.length : Int) = some (isls2d_remove_live
        { sh with entities := sh.entities ++
            [insertRecord sh x y w h d (sh.entities.length : Int)] }
        (sh.entities.length : Int)) := by
      unfold isls2d_remove
      rw [if_neg (by rw [hlen1]; omega), if_pos (Int.natCast_nonneg _),
        if_neg (by rw [hlive]; omega)]
    exact ⟨_, hrem, by rw [q1, hc],
      by rw [insert_snd, q3]; simp [List.getLast?_concat]⟩
  | some rid =>
    have hmem : rid ∈ sh.reusable_ids := getLast?_mem_of_eq_some hp
    obtain ⟨hr0, hrlt⟩ := hpool rid hmem
    rw [insert_reuse_of_cells_nil sh hc rid hp x y w h d]
    have hlen1 :
        ({ sh with
            reusable_ids := sh.reusable_ids.dropLast,
            entities := sh.entities.set rid.toNat
              (insertRecord sh x y w h d rid) } : Isls2d).entities.length
          = sh.entities.length := by
      simp [List.length_set]
    have hlive :
        (({ sh with
            reusable_ids := sh.reusable_ids.dropLast,
            entities := sh.entities.set rid.toNat
              (insertRecord sh x y w h d rid) } : Isls2d).entGet rid.toNat).id
          = rid := by
      simp only [Isls2d.entGet]
      rw [getD_set_self _ _ _ _ (by omega)]
      rfl
    obtain ⟨q1, q2, q3, q4⟩ := remove_live_spec
      { sh with reusable_ids := sh.reusable_ids.dropLast,
                entities := sh.entities.set rid.toNat
                  (insertRecord sh x y w h d rid) }
      rid hc (by rw [hlen1]; omega)
    have hrem : isls2d_remove
        { sh with reusable_ids := sh.reusable_ids.dropLast,
                  entities := sh.entities.set rid.toNat
                    (insertRecord sh x y w h d rid) }
        rid = some (isls2d_remove_live
        { sh with reusable_ids := sh.reusable_ids.dropLast,
                  entities := sh.entities.set rid.toNat
                    (insertRecord sh x y w h d rid) }
        rid) := by
      unfold isls2d_remove
      rw [if_neg (by rw [hlen1]; omega), if_pos hr0,
        if_neg (by rw [hlive]; omega)]
    exact ⟨_, hrem, by rw [q1, hc],
      by rw [insert_snd, q3]; simp [List.getLast?_concat]⟩

theorem c7_insert_remove_roundtrip_witness :
    ∃ sh2 : Isls2d,
      isls2d_remove (isls2d_insert (isls2d_init 1 1) 0 0 1 1 7).1
        (isls2d_insert (isls2d_init 1 1) 0 0 1 1 7).2 = some sh2 ∧
      sh2.cells = (isls2d_init 1 1).cells ∧
      (isls2d_insert sh2 2 2 1 1 9).2 =
        (isls2d_insert (isls2d_init 1 1) 0 0 1 1 7).2 :=
  c7_insert_remove_roundtrip (isls2d_init 1 1) (Reachable.init 1 1)
    0 0 1 1 7 2 2 1 1 9

/-- C1: for every reachable grid and rectangle passed to insert (and to
update on a live id), the stored cell footprint is
`xmin = ⌊x·invCellWidth⌋`, `xmax = ⌈(x+w)·invCellWidth⌉`,
`ymin = ⌊y·invCellHeight⌋`, `ymax = ⌈(y+h)·invCellHeight⌉`, and the set of
cells traversed for that footprint is exactly the half-open product range
`[xmin, xmax) × [ymin, ymax)`. -/
theorem c1_footprint_formulas (sh : Isls2d) (hR : Reachable sh)
    (x y w h : Scalar) (d : Int) (id : Int) (sh2 : Isls2d)
    (h0 : 0 ≤ id) (hlt : id < (sh.entities.length : Int))
    (hlive : (sh.entGet id.toNat).id = id)
    (heq : isls2d_update sh id x y w h = some sh2) :
    ((((isls2d_insert sh x y w h d).1).entGet
        ((isls2d_insert sh x y w h d).2).toNat).xmin =
          ⌊x * sh.inv_cell_width⌋ ∧
      (((isls2d_insert sh x y w h d).1).entGet
        ((isls2d_insert sh x y w h d).2).toNat).xmax =
          ⌈(x + w) * sh.inv_cell_width⌉ ∧
      (((isls2d_insert sh x y w h d).1).entGet
        ((isls2d_insert sh x y w h d).2).toNat).ymin =
          ⌊y * sh.inv_cell_height⌋ ∧
      (((isls2d_insert sh x y w h d).1).entGet
        ((isls2d_insert sh x y w h d).2).toNat).ymax =
          ⌈(y + h) * sh.inv_cell_height⌉) ∧
    ((sh2.entGet id.toNat).xmin = ⌊x * sh.inv_cell_width⌋ ∧
      (sh2.entGet id.toNat).xmax = ⌈(x + w) * sh.inv_cell_width⌉ ∧
      (sh2.entGet id.toNat).ymin = ⌊y * sh.inv_cell_height⌋ ∧
      (sh2.entGet id.toNat).ymax = ⌈(y + h) * sh.inv_cell_height⌉) ∧
    (∀ cx cy : Int,
      (cx, cy) ∈ footprintCells ⌊x * sh.inv_cell_width⌋
        ⌈(x + w) * sh.inv_cell_width⌉ ⌊y * sh.inv_cell_height⌋
        ⌈(y + h) * sh.inv_cell_height⌉ ↔
      (⌊x * sh.inv_cell_width⌋ ≤ cx ∧ cx < ⌈(x + w) * sh.inv_cell_width⌉ ∧
        ⌊y * sh.inv_cell_height⌋ ≤ cy ∧
        cy < ⌈(y + h) * sh.inv_cell_height⌉)) := by
  obtain ⟨hc, hpool, ht⟩ := reachable_inv sh hR
  refine ⟨?_, ?_, ?_⟩
  · cases hp : sh.reusable_ids.getLast? with
    | none =>
      rw [insert_fresh_of_cells_nil sh hc hp x y w h d]
      simp only [Isls2d.entGet, Int.toNat_natCast]
      rw [getD_append_length]
      exact ⟨rfl, rfl, rfl, rfl⟩
    | some rid =>
      have hmem : rid ∈ sh.reusable_ids := getLast?_mem_of_eq_some hp
      obtain ⟨hr0, hrlt⟩ := hpool rid hmem
      rw [insert_reuse_of_cells_nil sh hc rid hp x y w h d]
      simp only [Isls2d.entGet]
      rw [getD_set_self _ _ _ _ (by omega)]
      exact ⟨rfl, rfl, rfl, rfl⟩
  · unfold isls2d_update at heq
    rw [if_neg (by omega), if_pos h0, if_neg (by rw [hlive]; omega)] at heq
    injection heq with heq2
    subst heq2
    unfold isls2d_update_live
    rw [updateRelocate_nil sh id x y w h hc]
    unfold updateWriteRecord
    simp only [Isls2d.entGet]
    rw [getD_set_self _ _ _ _ (by omega)]
    exact ⟨rfl, rfl, rfl, rfl⟩
  · intro cx cy
    exact mem_footprintCells _ _ _ _ cx cy

theorem c1_footprint_formulas_witness :
    ((((isls2d_insert demoGrid 2 2 1 1 9).1).entGet
        ((isls2d_insert demoGrid 2 2 1 1 9).2).toNat).xmin =
          ⌊(2 : Scalar) * demoGrid.inv_cell_width⌋ ∧
      (((isls2d_insert demoGrid 2 2 1 1 9).1).entGet
        ((isls2d_insert demoGrid 2 2 1 1 9).2).toNat).xmax =
          ⌈((2 : Scalar) + 1) * demoGrid.inv_cell_width⌉ ∧
      (((isls2d_insert demoGrid 2 2 1 1 9).1).entGet
        ((isls2d_insert demoGrid 2 2 1 1 9).2).toNat).ymin =
          ⌊(2 : Scalar) * demoGrid.inv_cell_height⌋ ∧
      (((isls2d_insert demoGrid 2 2 1 1 9).1).entGet
        ((isls2d_insert demoGrid 2 2 1 1 9).2).toNat).ymax =
          ⌈((2 : Scalar) + 1) * demoGrid.inv_cell_height⌉) ∧
    (((isls2d_update_live demoGrid 0 2 2 1 1).entGet (0 : Int).toNat).xmin =
        ⌊(2 : Scalar) * demoGrid.inv_cell_width⌋ ∧
      ((isls2d_update_live demoGrid 0 2 2 1 1).entGet (0 : Int).toNat).xmax =
        ⌈((2 : Scalar) + 1) * demoGrid.inv_cell_width⌉ ∧
      ((isls2d_update_live demoGrid 0 2 2 1 1).entGet (0 : Int).toNat).ymin =
        ⌊(2 : Scalar) * demoGrid.inv_cell_height⌋ ∧
      ((isls2d_update_live demoGrid 0 2 2 1 1).entGet (0 : Int).toNat).ymax =
        ⌈((2 : Scalar) + 1) * demoGrid.inv_cell_height⌉) ∧
    (∀ cx cy : Int,
      (cx, cy) ∈ footprintCells ⌊(2 : Scalar) * demoGrid.inv_cell_width⌋
        ⌈((2 : Scalar) + 1) * demoGrid.inv_cell_width⌉
        ⌊(2 : Scalar) * demoGrid.inv_cell_height⌋
        ⌈((2 : Scalar) + 1) * demoGrid.inv_cell_height⌉ ↔
      (⌊(2 : Scalar) * demoGrid.inv_cell_width⌋ ≤ cx ∧
        cx < ⌈((2 : Scalar) + 1) * demoGrid.inv_cell_width⌉ ∧
        ⌊(2 : Scalar) * demoGrid.inv_cell_height⌋ ≤ cy ∧
        cy < ⌈((2 : Scalar) + 1) * demoGrid.inv_cell_height⌉)) :=
  c1_footprint_formulas demoGrid demoGrid_reachable 2 2 1 1 9 0
    (isls2d_update_live demoGrid 0 2 2 1 1) (by decide) (by decide) rfl
    (by unfold isls2d_update
        rw [if_neg (by decide), if_pos (by decide), if_neg (by decide)])

theorem track_insert1_fst :
    (isls2d_insert trackGrid 0 0 1 1 7).1 = trackGrid1 := by
  rw [insert_fresh_of_cells_nil trackGrid rfl rfl 0 0 1 1 7]
  simp only [trackGrid1, trackGrid, isls2d_init, insertRecord, isls2dFootprint]
  norm_num

theorem track_insert2_fst :
    (isls2d_insert trackGrid1 (1/2) 0 (1/2) 1 8).1 = trackGrid2 := by
  rw [insert_fresh_of_cells_nil trackGrid1 rfl rfl (1/2) 0 (1/2) 1 8]
  simp only [trackGrid2, trackGrid1, insertRecord, isls2dFootprint]
  norm_num

/-- C3 (code bug): with tracking enabled, two inserted entities whose
rectangles strictly overlap (and which share cell (0,0)) end up with empty
overlap sets on both sides — the cell map is never populated (the `n == 1`
store-back bug), so the insertion-time overlap scan sees an empty cell and
records no edge; moreover the scan that does run indexes `sh->entities`
positionally instead of by the resident ids. -/
theorem c3_overlap_sets_not_maintained :
    isls2d_overlaps 0 0 1 1 (1/2) 0 (1/2) 1 = true ∧
    (((isls2d_insert (isls2d_insert trackGrid 0 0 1 1 7).1
        (1/2) 0 (1/2) 1 8).1).entGet 0).overlaps = [] ∧
    (((isls2d_insert (isls2d_insert trackGrid 0 0 1 1 7).1
        (1/2) 0 (1/2) 1 8).1).entGet 1).overlaps = [] ∧
    ((isls2d_insert (isls2d_insert trackGrid 0 0 1 1 7).1
        (1/2) 0 (1/2) 1 8).1).track_overlap = true := by
  refine ⟨by unfold isls2d_overlaps; norm_num, ?_, ?_, ?_⟩ <;>
    rw [track_insert1_fst, track_insert2_fst] <;> rfl

/-- C8 (code bug): removing live entity 0, whose overlap set records
neighbor 2 (and vice versa), leaves id 0 in the still-live entity 2's
overlap set — the teardown loop at src lines 261-264 walks positions
`0..n-1` of the entity array instead of the ids recorded in the removed
entity's overlap set, so the actual neighbor's set is never visited. -/
theorem del_two_zero : isls2d__arrsorted_del [2] 0 = [2] := by
  unfold isls2d__arrsorted_del
  rw [isls2d__arrsorted_del_loop]
  norm_num
  rw [isls2d__arrsorted_del_loop]
  norm_num

theorem stale_remove_live_eq :
    isls2d_remove_live staleOverlapGrid 0 = staleOverlapGridRemoved := by
  unfold isls2d_remove_live
  rw [removeTeardown_nil _ _ rfl]
  have h2 : removeTombstone staleOverlapGrid 0 =
      { staleOverlapGrid with
        entities := [{ id := -1, x := 0, y := 0, width := 0, height := 0
                       xmin := 0, xmax := 0, ymin := 0, ymax := 0, data := 0
                       overlaps := [2] },
                     staleOverlapGrid.entities.getD 1 default,
                     staleOverlapGrid.entities.getD 2 default] } := by
    simp [removeTombstone, staleOverlapGrid, Isls2d.entGet]
  rw [h2]
  unfold removeOverlapSweep
  simp only [staleOverlapGrid, Isls2d.entGet, Isls2d.setOverlaps,
    List.getD_cons_zero, List.getD_cons_succ, List.length_cons,
    List.length_nil, List.range_succ, List.range_zero, List.nil_append,
    List.foldl_cons, List.foldl_nil, List.set_cons_zero, del_two_zero]
  unfold removeFinish
  norm_num
  rfl

theorem c8_remove_leaves_neighbor_overlap :
    (staleOverlapGrid.entGet 0).overlaps = [2] ∧
    ∃ sh2, isls2d_remove staleOverlapGrid 0 = some sh2 ∧
      (sh2.entGet 2).id = 2 ∧ (0 : Int) ∈ (sh2.entGet 2).overlaps := by
  refine ⟨rfl, staleOverlapGridRemoved, ?_, rfl, by decide⟩
  show some (isls2d_remove_live staleOverlapGrid 0) = some staleOverlapGridRemoved
  rw [stale_remove_live_eq]

theorem setOverlaps_periph (s : Isls2d) (i : Nat) (ov : List Int) :
    (s.setOverlaps i ov).cells = s.cells ∧
    (s.setOverlaps i ov).entities.length = s.entities.length ∧
    (s.setOverlaps i ov).reusable_ids = s.reusable_ids ∧
    (s.setOverlaps i ov).track_overlap = s.track_overlap :=
  ⟨rfl, by simp [Isls2d.setOverlaps, List.length_set], rfl, rfl⟩

theorem foldl_periph4 {β : Type} (g : Isls2d → β → Isls2d)
    (hg : ∀ s b, (g s b).cells = s.cells ∧
      (g s b).entities.length = s.entities.length ∧
      (g s b).reusable_ids = s.reusable_ids ∧
      (g s b).track_overlap = s.track_overlap)
    (L : List β) (sh : Isls2d) :
    (L.foldl g sh).cells = sh.cells ∧
    (L.foldl g sh).entities.length = sh.entities.length ∧
    (L.foldl g sh).reusable_ids = sh.reusable_ids ∧
    (L.foldl g sh).track_overlap = sh.track_overlap := by
  induction L generalizing sh with
  | nil => exact ⟨rfl, rfl, rfl, rfl⟩
  | cons b L ih =>
    rw [List.foldl_cons]
    obtain ⟨h1, h2, h3, h4⟩ := ih (g sh b)
    obtain ⟨g1, g2, g3, g4⟩ := hg sh b
    exact ⟨h1.trans g1, h2.trans g2, h3.trans g3, h4.trans g4⟩

theorem foldl_periph3 {β : Type} (g : Isls2d → β → Isls2d)
    (hg : ∀ s b, (g s b).entities.length = s.entities.length ∧
      (g s b).reusable_ids = s.reusable_ids ∧
      (g s b).track_overlap = s.track_overlap)
    (L : List β) (sh : Isls2d) :
    (L.foldl g sh).entities.length = sh.entities.length ∧
    (L.foldl g sh).reusable_ids = sh.reusable_ids ∧
    (L.foldl g sh).track_overlap = sh.track_overlap := by
  induction L generalizing sh with
  | nil => exact ⟨rfl, rfl, rfl⟩
  | cons b L ih =>
    rw [List.foldl_cons]
    obtain ⟨h1, h2, h3⟩ := ih (g sh b)
    obtain ⟨g1, g2, g3⟩ := hg sh b
    exact ⟨h1.trans g1, h2.trans g2, h3.trans g3⟩

theorem insertOverlapScanStep_periph (eIdx storedId : Int) (s : Isls2d)
    (i : Nat) :
    (insertOverlapScanStep eIdx storedId s i).cells = s.cells ∧
    (insertOverlapScanStep eIdx storedId s i).entities.length =
      s.entities.length ∧
    (insertOverlapScanStep eIdx storedId s i).reusable_ids =
      s.reusable_ids ∧
    (insertOverlapScanStep eIdx storedId s i).track_overlap =
      s.track_overlap := by
  dsimp only [insertOverlapScanStep]
  split
  · exact ⟨rfl, by simp [Isls2d.setOverlaps, List.length_set], rfl, rfl⟩
  · exact ⟨rfl, rfl, rfl, rfl⟩

theorem removeOverlapScanStep_periph (id : Int) (i : Nat) (s : Isls2d)
    (j : Nat) :
    (removeOverlapScanStep id i s j).cells = s.cells ∧
    (removeOverlapScanStep id i s j).entities.length = s.entities.length ∧
    (removeOverlapScanStep id i s j).reusable_ids = s.reusable_ids ∧
    (removeOverlapScanStep id i s j).track_overlap = s.track_overlap := by
  dsimp only [removeOverlapScanStep]
  exact ⟨rfl, by simp [Isls2d.setOverlaps, List.length_set], rfl, rfl⟩

/-- One insert-visit of the cell loop changes neither the entity count nor
the pool nor the flag (it only touches the cell map and overlap arrays). -/
theorem insert_cell_visit_periph (sh : Isls2d) (eIdx storedId key : Int) :
    (isls2d__insert_cell_visit sh eIdx storedId key).entities.length =
      sh.entities.length ∧
    (isls2d__insert_cell_visit sh eIdx storedId key).reusable_ids =
      sh.reusable_ids ∧
    (isls2d__insert_cell_visit sh eIdx storedId key).track_overlap =
      sh.track_overlap := by
  obtain ⟨f1, f2, f3, f4⟩ := foldl_periph4 (insertOverlapScanStep eIdx storedId)
    (insertOverlapScanStep_periph eIdx storedId)
    (List.range (hmget sh.cells key).length) sh
  dsimp only [isls2d__insert_cell_visit]
  split
  · split
    · exact ⟨f2, f3, f4⟩
    · exact ⟨f2, f3, f4⟩
  · split
    · exact ⟨rfl, rfl, rfl⟩
    · exact ⟨rfl, rfl, rfl⟩

/-- One remove-visit of the cell loop changes neither the entity count nor
the pool nor the flag. -/
theorem remove_cell_visit_periph (sh : Isls2d) (id key : Int) :
    (isls2d__remove_cell_visit sh id key).entities.length =
      sh.entities.length ∧
    (isls2d__remove_cell_visit sh id key).reusable_ids = sh.reusable_ids ∧
    (isls2d__remove_cell_visit sh id key).track_overlap =
      sh.track_overlap := by
  dsimp only [isls2d__remove_cell_visit]
  split
  next i heq =>
    obtain ⟨f1, f2, f3, f4⟩ := foldl_periph4 (removeOverlapScanStep id i)
      (removeOverlapScanStep_periph id i)
      (List.range ((hmget sh.cells key).length - 1))
      { sh with cells := hmput sh.cells key (arrdelswap (hmget sh.cells key) i) }
    split
    · split
      · exact ⟨f2, f3, f4⟩
      · exact ⟨f2, f3, f4⟩
    · split
      · exact ⟨rfl, rfl, rfl⟩
      · exact ⟨rfl, rfl, rfl⟩
  next =>
    split
    · exact ⟨rfl, rfl, rfl⟩
    · exact ⟨rfl, rfl, rfl⟩

theorem insert_into_cells_periph (sh : Isls2d) (id a b c d : Int) :
    (isls2d__insert_entity_into_cells sh id a b c d).entities.length =
      sh.entities.length ∧
    (isls2d__insert_entity_into_cells sh id a b c d).reusable_ids =
      sh.reusable_ids ∧
    (isls2d__insert_entity_into_cells sh id a b c d).track_overlap =
      sh.track_overlap := by
  dsimp only [isls2d__insert_entity_into_cells]
  exact foldl_periph3 _ (fun s xy => insert_cell_visit_periph s id _ _) _ sh

theorem remove_from_cells_periph (sh : Isls2d) (id a b c d : Int) :
    (isls2d__remove_entity_from_cells sh id a b c d).entities.length =
      sh.entities.length ∧
    (isls2d__remove_entity_from_cells sh id a b c d).reusable_ids =
      sh.reusable_ids ∧
    (isls2d__remove_entity_from_cells sh id a b c d).track_overlap =
      sh.track_overlap := by
  dsimp only [isls2d__remove_entity_from_cells]
  exact foldl_periph3 _ (fun s xy => remove_cell_visit_periph s id _) _ sh

theorem updateRelocate_periph (sh : Isls2d) (id : Int) (x y w h : Scalar) :
    (updateRelocate sh id x y w h).entities.length = sh.entities.length ∧
    (updateRelocate sh id x y w h).reusable_ids = sh.reusable_ids ∧
    (updateRelocate sh id x y w h).track_overlap = sh.track_overlap := by
  unfold updateRelocate
  split
  · obtain ⟨a1, a2, a3⟩ := remove_from_cells_periph sh id
      (sh.entGet id.toNat).xmin (sh.entGet id.toNat).xmax
      (sh.entGet id.toNat).ymin (sh.entGet id.toNat).ymax
    obtain ⟨b1, b2, b3⟩ := insert_into_cells_periph (removeTeardown sh id) id
      (isls2dFootprint sh x y w h).1 (isls2dFootprint sh x y w h).2.1
      (isls2dFootprint sh x y w h).2.2.1 (isls2dFootprint sh x y w h).2.2.2
    exact ⟨b1.trans a1, b2.trans a2, b3.trans a3⟩
  · exact ⟨rfl, rfl, rfl⟩

theorem getD_set_ne {α : Type} (l : List α) (i j : Nat) (a d : α)
    (h : j ≠ i) : (l.set i a).getD j d = l.getD j d := by
  simp [List.getD_eq_getElem?_getD, List.getElem?_set_ne (Ne.symm h)]

/-- C9: update on a live id succeeds and leaves the entity record holding
exactly the new rectangle and the newly computed footprint, with the id and
the user data retained; when tracking is disabled and the footprint is
unchanged it skips the cell teardown/re-insert (the cell map and all other
entity slots are untouched), and when tracking is enabled or the footprint
changed it performs the teardown over the old footprint followed by the
re-insert over the new one. -/
theorem c9_update_behaviour (sh : Isls2d) (id : Int) (x y w h : Scalar)
    (h0 : 0 ≤ id) (hlt : id < (sh.entities.length : Int))
    (hlive : (sh.entGet id.toNat).id = id) :
    ∃ sh2, isls2d_update sh id x y w h = some sh2 ∧
      ((sh2.entGet id.toNat).id = id ∧
       (sh2.entGet id.toNat).x = x ∧ (sh2.entGet id.toNat).y = y ∧
       (sh2.entGet id.toNat).width = w ∧ (sh2.entGet id.toNat).height = h ∧
       (sh2.entGet id.toNat).xmin = ⌊x * sh.inv_cell_width⌋ ∧
       (sh2.entGet id.toNat).xmax = ⌈(x + w) * sh.inv_cell_width⌉ ∧
       (sh2.entGet id.toNat).ymin = ⌊y * sh.inv_cell_height⌋ ∧
       (sh2.entGet id.toNat).ymax = ⌈(y + h) * sh.inv_cell_height⌉ ∧
       (sh2.entGet id.toNat).data = (sh.entGet id.toNat).data) ∧
      (sh.track_overlap = false ∧
        isls2dFootprint sh x y w h =
          ((sh.entGet id.toNat).xmin, (sh.entGet id.toNat).xmax,
           (sh.entGet id.toNat).ymin, (sh.entGet id.toNat).ymax) →
        sh2.cells = sh.cells ∧ sh2.reusable_ids = sh.reusable_ids ∧
        ∀ j : Nat, j ≠ id.toNat →
          sh2.entities.getD j default = sh.entities.getD j default) ∧
      (sh.track_overlap = true ∨
        isls2dFootprint sh x y w h ≠
          ((sh.entGet id.toNat).xmin, (sh.entGet id.toNat).xmax,
           (sh.entGet id.toNat).ymin, (sh.entGet id.toNat).ymax) →
        sh2.cells = (isls2d__insert_entity_into_cells
          (isls2d__remove_entity_from_cells sh id (sh.entGet id.toNat).xmin
            (sh.entGet id.toNat).xmax (sh.entGet id.toNat).ymin
            (sh.entGet id.toNat).ymax)
          id (isls2dFootprint sh x y w h).1 (isls2dFootprint sh x y w h).2.1
          (isls2dFootprint sh x y w h).2.2.1
          (isls2dFootprint sh x y w h).2.2.2).cells) := by
  obtain ⟨p1, p2, p3⟩ := updateRelocate_periph sh id x y w h
  have hidlt : id.toNat < (updateRelocate sh id x y w h).entities.length := by
    rw [p1]; omega
  have hupd : isls2d_update sh id x y w h =
      some (isls2d_update_live sh id x y w h) := by
    unfold isls2d_update
    rw [if_neg (by omega), if_pos h0, if_neg (by rw [hlive]; omega)]
  refine ⟨isls2d_update_live sh id x y w h, hupd, ?_, ?_, ?_⟩
  · unfold isls2d_update_live updateWriteRecord
    simp only [Isls2d.entGet]
    rw [getD_set_self _ _ _ _ hidlt]
    exact ⟨hlive, rfl, rfl, rfl, rfl, rfl, rfl, rfl, rfl, rfl⟩
  · rintro ⟨htr, hfp⟩
    have e1 : (isls2dFootprint sh x y w h).1 = (sh.entGet id.toNat).xmin := by
      rw [hfp]
    have e2 : (isls2dFootprint sh x y w h).2.1 =
        (sh.entGet id.toNat).xmax := by rw [hfp]
    have e3 : (isls2dFootprint sh x y w h).2.2.1 =
        (sh.entGet id.toNat).ymin := by rw [hfp]
    have e4 : (isls2dFootprint sh x y w h).2.2.2 =
        (sh.entGet id.toNat).ymax := by rw [hfp]
    have hrel : updateRelocate sh id x y w h = sh := by
      unfold updateRelocate
      rw [if_neg (by simp [htr, e1, e2, e3, e4])]
    unfold isls2d_update_live updateWriteRecord
    rw [hrel]
    refine ⟨rfl, rfl, ?_⟩
    intro j hj
    exact getD_set_ne _ _ _ _ _ hj
  · intro hor
    have hcond : sh.track_overlap = true ∨
        (isls2dFootprint sh x y w h).1 ≠ (sh.entGet id.toNat).xmin ∨
        (isls2dFootprint sh x y w h).2.1 ≠ (sh.entGet id.toNat).xmax ∨
        (isls2dFootprint sh x y w h).2.2.1 ≠ (sh.entGet id.toNat).ymin ∨
        (isls2dFootprint sh x y w h).2.2.2 ≠ (sh.entGet id.toNat).ymax := by
      rcases hor with htr | hne
      · exact Or.inl htr
      · by_contra hcon
        push_neg at hcon
        obtain ⟨hg1, hg2, hg3, hg4, hg5⟩ := hcon
        apply hne
        have hsplit : isls2dFootprint sh x y w h =
            ((isls2dFootprint sh x y w h).1,
             (isls2dFootprint sh x y w h).2.1,
             (isls2dFootprint sh x y w h).2.2.1,
             (isls2dFootprint sh x y w h).2.2.2) := rfl
        rw [hsplit, hg2, hg3, hg4, hg5]
    have hrel : updateRelocate sh id x y w h =
        isls2d__insert_entity_into_cells (removeTeardown sh id) id
          (isls2dFootprint sh x y w h).1 (isls2dFootprint sh x y w h).2.1
          (isls2dFootprint sh x y w h).2.2.1
          (isls2dFootprint sh x y w h).2.2.2 := by
      unfold updateRelocate
      rw [if_pos (by tauto)]
    unfold isls2d_update_live updateWriteRecord
    rw [hrel]
    rfl

theorem c9_update_behaviour_witness :
    ∃ sh2, isls2d_update trackGrid2 0 3 3 1 1 = some sh2 ∧
      ((sh2.entGet (0 : Int).toNat).id = 0 ∧
       (sh2.entGet (0 : Int).toNat).x = 3 ∧
       (sh2.entGet (0 : Int).toNat).y = 3 ∧
       (sh2.entGet (0 : Int).toNat).width = 1 ∧
       (sh2.entGet (0 : Int).toNat).height = 1 ∧
       (sh2.entGet (0 : Int).toNat).xmin =
         ⌊(3 : Scalar) * trackGrid2.inv_cell_width⌋ ∧
       (sh2.entGet (0 : Int).toNat).xmax =
         ⌈((3 : Scalar) + 1) * trackGrid2.inv_cell_width⌉ ∧
       (sh2.entGet (0 : Int).toNat).ymin =
         ⌊(3 : Scalar) * trackGrid2.inv_cell_height⌋ ∧
       (sh2.entGet (0 : Int).toNat).ymax =
         ⌈((3 : Scalar) + 1) * trackGrid2.inv_cell_height⌉ ∧
       (sh2.entGet (0 : Int).toNat).data =
         (trackGrid2.entGet (0 : Int).toNat).data) ∧
      (trackGrid2.track_overlap = false ∧
        isls2dFootprint trackGrid2 3 3 1 1 =
          ((trackGrid2.entGet (0 : Int).toNat).xmin,
           (trackGrid2.entGet (0 : Int).toNat).xmax,
           (trackGrid2.entGet (0 : Int).toNat).ymin,
           (trackGrid2.entGet (0 : Int).toNat).ymax) →
        sh2.cells = trackGrid2.cells ∧
        sh2.reusable_ids = trackGrid2.reusable_ids ∧
        ∀ j : Nat, j ≠ (0 : Int).toNat →
          sh2.entities.getD j default = trackGrid2.entities.getD j default) ∧
      (trackGrid2.track_overlap = true ∨
        isls2dFootprint trackGrid2 3 3 1 1 ≠
          ((trackGrid2.entGet (0 : Int).toNat).xmin,
           (trackGrid2.entGet (0 : Int).toNat).xmax,
           (trackGrid2.entGet (0 : Int).toNat).ymin,
           (trackGrid2.entGet (0 : Int).toNat).ymax) →
        sh2.cells = (isls2d__insert_entity_into_cells
          (isls2d__remove_entity_from_cells trackGrid2 0
            (trackGrid2.entGet (0 : Int).toNat).xmin
            (trackGrid2.entGet (0 : Int).toNat).xmax
            (trackGrid2.entGet (0 : Int).toNat).ymin
            (trackGrid2.entGet (0 : Int).toNat).ymax)
          0 (isls2dFootprint trackGrid2 3 3 1 1).1
          (isls2dFootprint trackGrid2 3 3 1 1).2.1
          (isls2dFootprint trackGrid2 3 3 1 1).2.2.1
          (isls2dFootprint trackGrid2 3 3 1 1).2.2.2).cells) :=
  c9_update_behaviour trackGrid2 0 3 3 1 1 (by decide) (by decide) rfl
